import Mathlib

/-!
Shallow embedding of the mollie-api-node client library (orders resource,
capture model, generic resource operations, list construction, error
normalization and HTTP client configuration), with theorems checking the
natural-language specification against the code.
-/

namespace Mollie

/-- JSON-like values, the dynamic values JavaScript objects hold. -/
inductive JValue where
  | null
  | str (s : String)
  | num (n : Int)
  | bool (b : Bool)
  | obj (fields : List (String × JValue))
  | arr (elems : List JValue)
  deriving Repr

/-- `lodash.startsWith(string, target)`: whether `string` begins with `target`. -/
def startsWith (s target : String) : Bool :=
  target.data.isPrefixOf s.data

/-! ## The `Capture` model (src/unnamed/part_000)

The class declares default field values (all `null` except
`resource = 'capture'` and the `_links` object with three `null` links);
the constructor runs `Object.assign(this, props)`, overwriting every field
whose key is present in the supplied partial. -/

/-- `Capture.resourcePrefix` from the source: `'cpt_'`. -/
def Capture.resourcePrefix : String := "cpt_"

/-- One `Capture` instance: the fields declared by the class, each holding a
dynamic value (the `_links` object is itself a JS object value). -/
structure Capture where
  resource : JValue
  id : JValue
  mode : JValue
  amount : JValue
  settlementAmount : JValue
  paymentId : JValue
  createdAt : JValue
  _links : JValue
  shipmentId : JValue
  settlementId : JValue
  deriving Repr

/-- The field initializers of the `Capture` class: `resource = 'capture'`,
`_links = { self: null, payment: null, documentation: null }`, everything
else `null`. -/
def Capture.defaults : Capture where
  resource := .str "capture"
  id := .null
  mode := .null
  amount := .null
  settlementAmount := .null
  paymentId := .null
  createdAt := .null
  _links := .obj [("self", .null), ("payment", .null), ("documentation", .null)]
  shipmentId := .null
  settlementId := .null

/-- `Partial<ICapture>`: each key either absent (`none`) or present with a
value (`some v`, where `v` may itself be `null`). -/
structure PartialCapture where
  resource : Option JValue := none
  id : Option JValue := none
  mode : Option JValue := none
  amount : Option JValue := none
  settlementAmount : Option JValue := none
  paymentId : Option JValue := none
  createdAt : Option JValue := none
  _links : Option JValue := none
  shipmentId : Option JValue := none
  settlementId : Option JValue := none
  deriving Repr

/-- The `Capture` constructor: field initializers run first (the defaults),
then `Object.assign(this, props)` overwrites each field whose key is present
in `props`, without any validation. -/
def Capture.construct (props : PartialCapture) : Capture where
  resource := match props.resource with | some v => v | none => Capture.defaults.resource
  id := match props.id with | some v => v | none => Capture.defaults.id
  mode := match props.mode with | some v => v | none => Capture.defaults.mode
  amount := match props.amount with | some v => v | none => Capture.defaults.amount
  settlementAmount := match props.settlementAmount with | some v => v | none => Capture.defaults.settlementAmount
  paymentId := match props.paymentId with | some v => v | none => Capture.defaults.paymentId
  createdAt := match props.createdAt with | some v => v | none => Capture.defaults.createdAt
  _links := match props._links with | some v => v | none => Capture.defaults._links
  shipmentId := match props.shipmentId with | some v => v | none => Capture.defaults.shipmentId
  settlementId := match props.settlementId with | some v => v | none => Capture.defaults.settlementId

/-- The field names of the `Capture` class, for quantifying over fields. -/
inductive CaptureField where
  | resource | id | mode | amount | settlementAmount
  | paymentId | createdAt | _links | shipmentId | settlementId
  deriving DecidableEq, Repr

/-- Read one field of a `Capture` instance by name. -/
def Capture.getField (c : Capture) : CaptureField → JValue
  | .resource => c.resource
  | .id => c.id
  | .mode => c.mode
  | .amount => c.amount
  | .settlementAmount => c.settlementAmount
  | .paymentId => c.paymentId
  | .createdAt => c.createdAt
  | ._links => c._links
  | .shipmentId => c.shipmentId
  | .settlementId => c.settlementId

/-- Read one key of a partial by name (`none` when the key is absent). -/
def PartialCapture.getField (p : PartialCapture) : CaptureField → Option JValue
  | .resource => p.resource
  | .id => p.id
  | .mode => p.mode
  | .amount => p.amount
  | .settlementAmount => p.settlementAmount
  | .paymentId => p.paymentId
  | .createdAt => p.createdAt
  | ._links => p._links
  | .shipmentId => p.shipmentId
  | .settlementId => p.settlementId

/-! ## Errors, transport and operation results

The `ApiError` class and the base `Resource` are not under `src/`; they are
modelled from the spec (§4.3, §7: one typed error per failure, message taken
from the response's `detail` field when present, else a generic message;
client-side validation errors raised synchronously with no network call). -/

/-- Modelled from the spec: the one typed error surfaced to callers —
client-side validation errors, API errors (non-2xx, with status and the
detail-derived message) and transport failures. -/
inductive MollieError where
  | validation (message : String)
  | api (status : Nat) (message : String)
  | transportFailure (message : String)
  deriving DecidableEq, Repr

/-- The human-readable message carried by a typed error. -/
def MollieError.message : MollieError → String
  | .validation m => m
  | .api _ m => m
  | .transportFailure m => m

/-- Request parameters, treated as an opaque JSON value. -/
abbrev Params := JValue

/-- A JS callback function, identified by an opaque token; the embedding
records which function is invoked and with which arguments. -/
abbrev Callback := Nat

/-- The dynamic value a caller may pass in the `params` position: either a
params object (or `null`/`undefined`), or — in the deprecated calling
convention — a callback function. -/
inductive ParamsArg where
  | value (p : Option Params)
  | func (f : Callback)

/-- `typeof params === 'function'`. -/
def ParamsArg.isFunc : ParamsArg → Bool
  | .func _ => true
  | .value _ => false

/-- The params object held, `none` when the argument is `null`/`undefined`
or a function. -/
def ParamsArg.asValue : ParamsArg → Option Params
  | .value p => p
  | .func _ => none

/-- The callback function held, when the argument is one. -/
def ParamsArg.theFunc : ParamsArg → Option Callback
  | .func f => some f
  | .value _ => none

/-- One HTTP request handed to the transport. -/
structure HttpRequest where
  method : String
  path : String
  params : Option Params

/-- One HTTP response: status code and parsed JSON body. -/
structure HttpResponse where
  status : Nat
  body : JValue

/-- What the transport yields for a request: a response, or a
transport-level failure (DNS/connection/timeout). -/
inductive TransportResult where
  | response (r : HttpResponse)
  | failure (message : String)

/-- The HTTP transport, as a function from request to result. -/
def Transport := HttpRequest → TransportResult

/-- Whether a status code is in the 2xx success range. -/
def is2xx (status : Nat) : Bool :=
  200 ≤ status && status < 300

/-- Field lookup on a JSON object value (`none` on non-objects and absent
keys). -/
def JValue.getJField : JValue → String → Option JValue
  | .obj fields, key => fields.lookup key
  | _, _ => none

/-- The `detail` field of an error response body, when present as a string. -/
def getDetail (body : JValue) : Option String :=
  match body.getJField "detail" with
  | some (.str s) => some s
  | _ => none

/-- Modelled from the spec: the generic fallback description used when a
non-2xx response carries no `detail` field. -/
def genericErrorMessage : String := "An unknown error has occurred"

/-- Modelled from the spec: error normalization for a non-2xx response —
status code plus the `detail` message when present, else the generic one. -/
def apiErrorOf (resp : HttpResponse) : MollieError :=
  .api resp.status ((getDetail resp.body).getD genericErrorMessage)

/-- The observable outcome of one Resource operation: the promise
resolution/rejection, the requests handed to the transport (in order), and
the callback invocations `(function, error argument, result argument)`. -/
structure OpResult (A : Type) where
  outcome : Except MollieError A
  requests : List HttpRequest
  callbackCalls : List (Callback × Option MollieError × Option A)

/-- Modelled from the spec: the callback adapter — a supplied callback is
invoked exactly once with `(error, result)` mirroring the outcome. -/
def cbRecord {A : Type} (cb : Option Callback) (outcome : Except MollieError A) :
    List (Callback × Option MollieError × Option A) :=
  match cb with
  | none => []
  | some c =>
    match outcome with
    | .ok a => [(c, none, some a)]
    | .error e => [(c, some e, none)]

/-- Package an outcome with its transport trace and callback invocations. -/
def mkResult {A : Type} (outcome : Except MollieError A) (requests : List HttpRequest)
    (cb : Option Callback) : OpResult A :=
  { outcome := outcome, requests := requests, callbackCalls := cbRecord cb outcome }

/-- Modelled from the spec: `Resource.errorHandler` on a client-side
validation failure — the operation fails synchronously with the validation
error, no request is made, and a supplied callback receives the error. -/
def failResult {A : Type} (message : String) (cb : Option Callback) : OpResult A :=
  mkResult (.error (.validation message)) [] cb

/-- An `Order` model instance, populated directly from a response body. -/
structure Order where
  body : JValue

/-- Modelled from the spec: a single-entity response body maps directly to a
Model. -/
def Order.fromBody (b : JValue) : Order := ⟨b⟩

/-- Modelled from the spec: the `Order` model's ID prefix (the model file is
not under src; the spec requires a fixed literal prefix per entity). -/
def Order.resourcePrefix : String := "ord_"

/-- The items embedded in a collection response body, under the
resource-named key inside `_embedded`. -/
def getEmbedded (resource : String) (body : JValue) : List JValue :=
  match body.getJField "_embedded" with
  | some e =>
    match e.getJField resource with
    | some (.arr xs) => xs
    | _ => []
  | none => []

/-- A named navigation link of a collection response (`none` when the
`_links` entry is absent or `null`). -/
def getLink (body : JValue) (name : String) : Option JValue :=
  match body.getJField "_links" with
  | some l =>
    match l.getJField name with
    | some .null => none
    | some v => some v
    | none => none
  | none => none

/-- The `count` field of a collection response. -/
def getCount (body : JValue) : Int :=
  match body.getJField "count" with
  | some (.num n) => n
  | _ => 0

/-- One page of `Order` models plus pagination links and count metadata. -/
structure OrderList where
  items : List Order
  count : Int
  nextLink : Option JValue
  previousLink : Option JValue

/-- Modelled from the spec: building a `List` from a collection response —
the embedded items, in response order, each deserialized into a Model, plus
the next/previous links and the count. -/
def buildList (resource : String) (body : JValue) : OrderList :=
  { items := (getEmbedded resource body).map Order.fromBody
    count := getCount body
    nextLink := getLink body "next"
    previousLink := getLink body "previous" }

/-- Outcome of one request: transport failures and non-2xx responses become
typed errors, a 2xx response is parsed into the result. -/
def handleResponse {A : Type} (parse : JValue → A) : TransportResult → Except MollieError A
  | .failure m => .error (.transportFailure m)
  | .response resp =>
    if is2xx resp.status then .ok (parse resp.body) else .error (apiErrorOf resp)

/-- Modelled from the spec: one network round trip — hand the request to the
transport, normalize the outcome, invoke a supplied callback with it. -/
def runRequest {A : Type} (t : Transport) (req : HttpRequest) (parse : JValue → A)
    (cb : Option Callback) : OpResult A :=
  mkResult (handleResponse parse (t req)) [req] cb

/-- Modelled from the spec: the base `Resource.get` — one GET to
`resource/id`, deserialized into a Model. -/
def Resource.get (t : Transport) (resource id : String) (params : Option Params)
    (cb : Option Callback) : OpResult Order :=
  runRequest t ⟨"GET", resource ++ "/" ++ id, params⟩ Order.fromBody cb

/-- Modelled from the spec: the base `Resource.list` — one GET to the
collection path, deserialized into a List of Models. -/
def Resource.list (t : Transport) (resource : String) (params : Option Params)
    (cb : Option Callback) : OpResult OrderList :=
  runRequest t ⟨"GET", resource, params⟩ (buildList resource) cb

/-- Modelled from the spec: the base `Resource.update` — one partial-update
request to `resource/id`, returning the updated Model. -/
def Resource.update (t : Transport) (resource id : String) (params : Option Params)
    (cb : Option Callback) : OpResult Order :=
  runRequest t ⟨"PATCH", resource ++ "/" ++ id, params⟩ Order.fromBody cb

/-- Modelled from the spec: the base `Resource.delete` — one delete/cancel
request to `resource/id`, returning the resulting Model (not a bare flag). -/
def Resource.delete (t : Transport) (resource id : String) (params : Option Params)
    (cb : Option Callback) : OpResult Order :=
  runRequest t ⟨"DELETE", resource ++ "/" ++ id, params⟩ Order.fromBody cb

/-- Modelled from the spec: the base `Resource.create` — one POST to the
collection path, returning the created Model. -/
def Resource.create (t : Transport) (resource : String) (params : Option Params)
    (cb : Option Callback) : OpResult Order :=
  runRequest t ⟨"POST", resource, params⟩ Order.fromBody cb

/-! ## The `Orders` resource (src/unnamed/part_001)

Each public method first (where applicable) checks the ID prefix and fails
through `Resource.errorHandler` — note the source hands only the `cb`
parameter (never a params-position function) to the error handler — and
then normalizes the deprecated calling convention before delegating to the
base `Resource` method. -/

/-- The path segment of the orders resource. -/
def Orders.resource : String := "orders"

/-- What an `Orders` method does after its own checks: fail synchronously
(recording which callback the error handler was handed), or delegate to the
base `Resource` method with normalized `(params, cb)` arguments. -/
inductive OrdersAction where
  | fail (message : String) (cb : Option Callback)
  | delegate (params : ParamsArg) (cb : Option Callback)

/-- `Orders.get` argument handling from the source: invalid prefix fails via
`Resource.errorHandler({...}, cb)`; with a function in the params position or
a callback supplied, delegates
`super.get(id, isFunc ? null : params, isFunc ? params : cb)`; otherwise
delegates `super.get(id, params, cb)`. -/
def Orders.getArgs (id : String) (params : ParamsArg) (cb : Option Callback) : OrdersAction :=
  if !(startsWith id Order.resourcePrefix) then
    .fail "The order id is invalid" cb
  else if params.isFunc || cb.isSome then
    .delegate (if params.isFunc then .value none else params)
      (if params.isFunc then params.theFunc else cb)
  else
    .delegate params cb

/-- `Orders.list` argument handling from the source: no ID to check; with a
function in the params position or a callback supplied, delegates
`super.list(isFunc ? null : params, isFunc ? params : cb)`; otherwise
delegates `super.list(params, cb)`. -/
def Orders.listArgs (params : ParamsArg) (cb : Option Callback) : OrdersAction :=
  if params.isFunc || cb.isSome then
    .delegate (if params.isFunc then .value none else params)
      (if params.isFunc then params.theFunc else cb)
  else
    .delegate params cb

/-- `Orders.update` argument handling from the source: invalid prefix fails
via `Resource.errorHandler({...}, cb)`; otherwise delegates
`super.update(id, data, cb)` (no deprecated params-position callback). -/
def Orders.updateArgs (id : String) (data : Params) (cb : Option Callback) : OrdersAction :=
  if !(startsWith id Order.resourcePrefix) then
    .fail "The order id is invalid" cb
  else
    .delegate (.value (some data)) cb

/-- `Orders.cancel` argument handling from the source: like `get`, but
delegating to `super.delete`. -/
def Orders.cancelArgs (id : String) (params : ParamsArg) (cb : Option Callback) : OrdersAction :=
  if !(startsWith id Order.resourcePrefix) then
    .fail "The order id is invalid" cb
  else if params.isFunc || cb.isSome then
    .delegate (if params.isFunc then .value none else params)
      (if params.isFunc then params.theFunc else cb)
  else
    .delegate params cb

/-- `Orders.get`: run the argument handling, then the base `Resource.get`. -/
def Orders.get (t : Transport) (id : String) (params : ParamsArg)
    (cb : Option Callback) : OpResult Order :=
  match Orders.getArgs id params cb with
  | .fail m fcb => failResult m fcb
  | .delegate p c => Resource.get t Orders.resource id p.asValue c

/-- `Orders.list`: run the argument handling, then the base `Resource.list`. -/
def Orders.list (t : Transport) (params : ParamsArg)
    (cb : Option Callback) : OpResult OrderList :=
  match Orders.listArgs params cb with
  | .fail m fcb => failResult m fcb
  | .delegate p c => Resource.list t Orders.resource p.asValue c

/-- `Orders.update`: run the argument handling, then the base
`Resource.update`. -/
def Orders.update (t : Transport) (id : String) (data : Params)
    (cb : Option Callback) : OpResult Order :=
  match Orders.updateArgs id data cb with
  | .fail m fcb => failResult m fcb
  | .delegate p c => Resource.update t Orders.resource id p.asValue c

/-- `Orders.cancel`: run the argument handling, then the base
`Resource.delete` (the source cancels through `super.delete`). -/
def Orders.cancel (t : Transport) (id : String) (params : ParamsArg)
    (cb : Option Callback) : OpResult Order :=
  match Orders.cancelArgs id params cb with
  | .fail m fcb => failResult m fcb
  | .delegate p c => Resource.delete t Orders.resource id p.asValue c

/-- `Orders.create`: delegates directly, `super.create(params, cb)`. -/
def Orders.create (t : Transport) (params : Params)
    (cb : Option Callback) : OpResult Order :=
  Resource.create t Orders.resource (some params) cb

/-- The `delete = this.cancel` alias from the source. -/
def Orders.delete : Transport → String → ParamsArg → Option Callback → OpResult Order :=
  Orders.cancel

/-! ## HTTP client factory configuration -/

/-- The statically configured part of the axios instance: base URL and
default headers. -/
structure HttpClientConfig where
  baseURL : String
  headers : List (String × String)

/-- Modelled from the spec: `createHttpClient` (not under src; only its unit
test is) — fixed HTTPS base URL of the API host, and default headers
`Authorization` (derived from the configured credential), `User-Agent`,
`Accept-Encoding` and `Content-Type: application/json`. -/
def createHttpClient (apiKey : String) : HttpClientConfig :=
  { baseURL := "https://api.mollie.com:443/v2/"
    headers := [("Authorization", "Bearer " ++ apiKey),
                ("User-Agent", "mollie-api-node"),
                ("Accept-Encoding", "gzip"),
                ("Content-Type", "application/json")] }

/-- A stub transport used for concrete witnesses and counterexamples. -/
def stubTransport : Transport :=
  fun _ => .response ⟨200, .obj [("id", .str "ord_1")]⟩

/-- A stub transport answering every request with a non-2xx error body. -/
def errorStubTransport : Transport :=
  fun _ => .response ⟨500, .obj [("detail", .str "The method id is invalid")]⟩

/-- A stub transport answering with a plain success body. -/
def cancelStubTransport : Transport :=
  fun _ => .response ⟨200, .str "canceled"⟩

/-- A concrete collection response body with one embedded order and `null`
next/previous links. -/
def listBodyOne : JValue :=
  .obj [("_embedded", .obj [("orders", .arr [.str "o1"])]),
        ("count", .num 1),
        ("_links", .obj [("next", .null), ("previous", .null)])]

/-- A concrete empty collection response body with `null` links. -/
def listBodyEmpty : JValue :=
  .obj [("_embedded", .obj [("orders", .arr [])]),
        ("count", .num 0),
        ("_links", .obj [("next", .null), ("previous", .null)])]

/-- A stub transport answering every request with the one-item collection. -/
def listStubTransport : Transport :=
  fun _ => .response ⟨200, listBodyOne⟩

/-- Exclusive-outcome discipline of one operation result: the outcome is
exactly one resolution or one rejection, and every recorded callback
invocation mirrors that single outcome exclusively. -/
def OpResult.singleOutcome {A : Type} (r : OpResult A) : Prop :=
  ((∃ a, r.outcome = .ok a) ∨ (∃ e, r.outcome = .error e)) ∧
  ¬((∃ a, r.outcome = .ok a) ∧ (∃ e, r.outcome = .error e)) ∧
  ∀ c eOpt aOpt, (c, eOpt, aOpt) ∈ r.callbackCalls →
    ((∃ e, eOpt = some e ∧ r.outcome = .error e ∧ aOpt = none) ∨
     (∃ a, aOpt = some a ∧ r.outcome = .ok a ∧ eOpt = none))

/-! ## Theorems -/

/-- The merge rule of `Object.assign`, field by field: a present key
overwrites, an absent key keeps the default. -/
theorem Capture.construct_getField (props : PartialCapture) (f : CaptureField) :
    (Capture.construct props).getField f =
      (props.getField f).getD (Capture.defaults.getField f) := by
  cases f <;> simp only [Capture.construct, Capture.getField, PartialCapture.getField,
    Option.getD] <;> (split <;> simp_all)

/-- Any packaged operation result obeys the exclusive-outcome discipline. -/
theorem mkResult_singleOutcome {A : Type} (o : Except MollieError A)
    (reqs : List HttpRequest) (cb : Option Callback) :
    (mkResult o reqs cb).singleOutcome := by
  cases o <;> cases cb <;>
    simp [mkResult, cbRecord, OpResult.singleOutcome] <;>
    (intro c eOpt aOpt h1 h2 h3; subst h2; subst h3; simp)

/-- On a valid id with a params object, `Orders.get` delegates to the base
`Resource.get` with those arguments unchanged. -/
theorem Orders.get_value_valid (t : Transport) (id : String) (p : Option Params)
    (cb : Option Callback) (hid : startsWith id Order.resourcePrefix = true) :
    Orders.get t id (.value p) cb = Resource.get t Orders.resource id p cb := by
  cases cb <;>
    simp [Orders.get, Orders.getArgs, hid, ParamsArg.isFunc, ParamsArg.asValue]

/-- C1: for every id that does not start with `Order.resourcePrefix`,
`Orders.get`, `Orders.update` and `Orders.cancel` fail with the validation
error `'The order id is invalid'` and hand no request to the transport. -/
theorem invalid_id_short_circuits (t : Transport) (id : String)
    (params : ParamsArg) (data : Params) (cb : Option Callback)
    (h : startsWith id Order.resourcePrefix = false) :
    ((Orders.get t id params cb).outcome = .error (.validation "The order id is invalid") ∧
      (Orders.get t id params cb).requests = []) ∧
    ((Orders.update t id data cb).outcome = .error (.validation "The order id is invalid") ∧
      (Orders.update t id data cb).requests = []) ∧
    ((Orders.cancel t id params cb).outcome = .error (.validation "The order id is invalid") ∧
      (Orders.cancel t id params cb).requests = []) := by
  simp [Orders.get, Orders.update, Orders.cancel, Orders.getArgs, Orders.updateArgs,
    Orders.cancelArgs, h, failResult, mkResult]

/-- Witness for C1 at the concrete id `"foo"`. -/
theorem invalid_id_short_circuits_witness :
    startsWith "foo" Order.resourcePrefix = false ∧
    (Orders.get stubTransport "foo" (.value none) none).outcome =
      .error (.validation "The order id is invalid") ∧
    (Orders.get stubTransport "foo" (.value none) none).requests = [] :=
  ⟨by decide,
   (invalid_id_short_circuits stubTransport "foo" (.value none) .null none (by decide)).1.1,
   (invalid_id_short_circuits stubTransport "foo" (.value none) .null none (by decide)).1.2⟩

/-- C4: Model construction merges the supplied partial field map over the
entity's declared defaults — every key present in the response appears
unchanged on the Model, every key absent keeps its default. -/
theorem capture_construct_roundtrip (props : PartialCapture) (f : CaptureField) (v : JValue) :
    (props.getField f = some v → (Capture.construct props).getField f = v) ∧
    (props.getField f = none →
      (Capture.construct props).getField f = Capture.defaults.getField f) := by
  constructor <;> intro h <;> simp [Capture.construct_getField, h]

/-- Witness for C4 at a concrete partial supplying only `id`. -/
theorem capture_construct_roundtrip_witness :
    (PartialCapture.getField { id := some (.str "cpt_7") } .id = some (.str "cpt_7") ∧
      (Capture.construct { id := some (.str "cpt_7") }).getField .id = .str "cpt_7") ∧
    (PartialCapture.getField { id := some (.str "cpt_7") } .mode = none ∧
      (Capture.construct { id := some (.str "cpt_7") }).getField .mode =
        Capture.defaults.getField .mode) :=
  ⟨⟨rfl, (capture_construct_roundtrip { id := some (.str "cpt_7") } .id (.str "cpt_7")).1 rfl⟩,
   ⟨rfl, (capture_construct_roundtrip { id := some (.str "cpt_7") } .mode .null).2 rfl⟩⟩

/-- C9: an argumentless `Capture` has resource `'capture'`, every entity
field `null`, `_links` with `self`/`payment`/`documentation` all `null`, the
static `resourcePrefix` is `'cpt_'`, and any key supplied in the partial —
`resource` and `_links` included — overwrites its default unvalidated. -/
theorem capture_defaults_and_overwrite :
    ((Capture.construct {}).resource = .str "capture" ∧
      (Capture.construct {}).id = .null ∧
      (Capture.construct {}).mode = .null ∧
      (Capture.construct {}).amount = .null ∧
      (Capture.construct {}).settlementAmount = .null ∧
      (Capture.construct {}).paymentId = .null ∧
      (Capture.construct {}).createdAt = .null ∧
      (Capture.construct {}).shipmentId = .null ∧
      (Capture.construct {}).settlementId = .null ∧
      (Capture.construct {})._links =
        .obj [("self", .null), ("payment", .null), ("documentation", .null)] ∧
      Capture.resourcePrefix = "cpt_") ∧
    (∀ (props : PartialCapture) (f : CaptureField) (v : JValue),
      props.getField f = some v → (Capture.construct props).getField f = v) := by
  refine ⟨⟨rfl, rfl, rfl, rfl, rfl, rfl, rfl, rfl, rfl, rfl, rfl⟩, ?_⟩
  intro props f v h
  simp [Capture.construct_getField, h]

/-- Witness for C9: the defaults plus one concrete unvalidated overwrite of
the `resource` key. -/
theorem capture_defaults_and_overwrite_witness :
    (Capture.construct {}).resource = .str "capture" ∧
    (Capture.construct { resource := some (.str "changed") }).getField .resource =
      .str "changed" :=
  ⟨capture_defaults_and_overwrite.1.1,
   capture_defaults_and_overwrite.2 { resource := some (.str "changed") } .resource
     (.str "changed") rfl⟩

/-- C10: a function received in the params position is shifted — the
delegated base call gets `null` params and that function as callback — and
the delegated params argument is never a function, for `get`, `list` and
`cancel`. -/
theorem callback_shift_normalization (id : String) (f : Callback)
    (params p' : ParamsArg) (cb cb' : Option Callback) :
    (startsWith id Order.resourcePrefix = true →
      Orders.getArgs id (.func f) cb = .delegate (.value none) (some f) ∧
      Orders.cancelArgs id (.func f) cb = .delegate (.value none) (some f)) ∧
    Orders.listArgs (.func f) cb = .delegate (.value none) (some f) ∧
    (Orders.getArgs id params cb = .delegate p' cb' → p'.isFunc = false) ∧
    (Orders.listArgs params cb = .delegate p' cb' → p'.isFunc = false) ∧
    (Orders.cancelArgs id params cb = .delegate p' cb' → p'.isFunc = false) := by
  refine ⟨fun h => ?_, ?_, ?_, ?_, ?_⟩
  · constructor <;>
      simp [Orders.getArgs, Orders.cancelArgs, h, ParamsArg.isFunc, ParamsArg.theFunc]
  · simp [Orders.listArgs, ParamsArg.isFunc, ParamsArg.theFunc]
  · intro hEq
    cases hb : startsWith id Order.resourcePrefix <;> cases params <;> cases cb <;>
      simp [Orders.getArgs, hb, ParamsArg.isFunc, ParamsArg.theFunc] at hEq <;>
      simp [← hEq.1, ParamsArg.isFunc]
  · intro hEq
    cases params <;> cases cb <;>
      simp [Orders.listArgs, ParamsArg.isFunc, ParamsArg.theFunc] at hEq <;>
      simp [← hEq.1, ParamsArg.isFunc]
  · intro hEq
    cases hb : startsWith id Order.resourcePrefix <;> cases params <;> cases cb <;>
      simp [Orders.cancelArgs, hb, ParamsArg.isFunc, ParamsArg.theFunc] at hEq <;>
      simp [← hEq.1, ParamsArg.isFunc]

/-- Witness for C10 at a concrete valid id and callback token. -/
theorem callback_shift_normalization_witness :
    startsWith "ord_1" Order.resourcePrefix = true ∧
    Orders.getArgs "ord_1" (.func 7) none = .delegate (.value none) (some 7) ∧
    ParamsArg.isFunc (.value none) = false :=
  ⟨by decide,
   ((callback_shift_normalization "ord_1" 7 (.func 7) (.value none) none (some 7)).1
     (by decide)).1,
   (callback_shift_normalization "ord_1" 7 (.func 7) (.value none) none (some 7)).2.2.1 rfl⟩

/-- C7: the HTTP client is configured with the fixed HTTPS base URL of the
API host, and its default headers include `Authorization` derived from the
configured credential, `User-Agent`, `Accept-Encoding` and `Content-Type`. -/
theorem http_client_config (apiKey : String) :
    (createHttpClient apiKey).baseURL = "https://api.mollie.com:443/v2/" ∧
    (createHttpClient apiKey).headers.lookup "Authorization" = some ("Bearer " ++ apiKey) ∧
    ((createHttpClient apiKey).headers.map Prod.fst).contains "User-Agent" = true ∧
    ((createHttpClient apiKey).headers.map Prod.fst).contains "Accept-Encoding" = true ∧
    ((createHttpClient apiKey).headers.map Prod.fst).contains "Content-Type" = true := by
  refine ⟨rfl, ?_, ?_, ?_, ?_⟩ <;> rfl

/-- C8: `Orders.delete` is the `cancel` alias — the very same operation on
every input — and a successful cancel resolves with the Order model built
from the response body, not a bare success flag. -/
theorem delete_is_cancel (t : Transport) (id : String) (params : ParamsArg)
    (cb : Option Callback) (status : Nat) (body : JValue) :
    Orders.delete t id params cb = Orders.cancel t id params cb ∧
    (startsWith id Order.resourcePrefix = true →
      t ⟨"DELETE", Orders.resource ++ "/" ++ id, params.asValue⟩ = .response ⟨status, body⟩ →
      is2xx status = true →
      (Orders.delete t id params cb).outcome = .ok (Order.fromBody body)) := by
  constructor
  · rfl
  · intro hid ht h2
    cases params <;> cases cb <;>
      simp_all [Orders.delete, Orders.cancel, Orders.cancelArgs, ParamsArg.isFunc,
        ParamsArg.theFunc, ParamsArg.asValue, Resource.delete, runRequest, mkResult,
        handleResponse]

/-- C2: every Orders operation resolves with exactly one Model/List or fails
with exactly one typed error — never both, never silently neither — and any
callback invocation mirrors that single outcome, on every input. -/
theorem operation_single_outcome (t : Transport) (id : String) (params : ParamsArg)
    (data createParams : Params) (cb : Option Callback) :
    (Orders.get t id params cb).singleOutcome ∧
    (Orders.list t params cb).singleOutcome ∧
    (Orders.update t id data cb).singleOutcome ∧
    (Orders.cancel t id params cb).singleOutcome ∧
    (Orders.create t createParams cb).singleOutcome := by
  refine ⟨?_, ?_, ?_, ?_, ?_⟩
  · unfold Orders.get
    cases Orders.getArgs id params cb with
    | fail m fcb => exact mkResult_singleOutcome _ _ _
    | delegate p c => exact mkResult_singleOutcome _ _ _
  · unfold Orders.list
    cases Orders.listArgs params cb with
    | fail m fcb => exact mkResult_singleOutcome _ _ _
    | delegate p c => exact mkResult_singleOutcome _ _ _
  · unfold Orders.update
    cases Orders.updateArgs id data cb with
    | fail m fcb => exact mkResult_singleOutcome _ _ _
    | delegate p c => exact mkResult_singleOutcome _ _ _
  · unfold Orders.cancel
    cases Orders.cancelArgs id params cb with
    | fail m fcb => exact mkResult_singleOutcome _ _ _
    | delegate p c => exact mkResult_singleOutcome _ _ _
  · exact mkResult_singleOutcome _ _ _

/-- Witness for C2 at a concrete call. -/
theorem operation_single_outcome_witness :
    (Orders.get stubTransport "ord_1" (.value none) none).singleOutcome :=
  (operation_single_outcome stubTransport "ord_1" (.value none) .null .null none).1

/-- C3: a non-2xx response whose body carries `detail: X` surfaces an error
whose message is exactly X — on the promise outcome and as the callback's
error argument — and without `detail` the message is the generic fallback. -/
theorem error_message_from_detail (t : Transport) (id : String) (p : Option Params)
    (cb : Option Callback) (status : Nat) (body : JValue)
    (hid : startsWith id Order.resourcePrefix = true)
    (ht : t ⟨"GET", Orders.resource ++ "/" ++ id, p⟩ = .response ⟨status, body⟩)
    (h2 : is2xx status = false) :
    (∀ s, getDetail body = some s →
      ∃ e, (Orders.get t id (.value p) cb).outcome = .error e ∧ e.message = s) ∧
    (getDetail body = none →
      ∃ e, (Orders.get t id (.value p) cb).outcome = .error e ∧
        e.message = genericErrorMessage) ∧
    (∀ c, cb = some c → ∃ e,
      (Orders.get t id (.value p) cb).callbackCalls = [(c, some e, none)] ∧
      e.message = (getDetail body).getD genericErrorMessage) := by
  rw [Orders.get_value_valid t id p cb hid]
  refine ⟨?_, ?_, ?_⟩
  · intro s hs
    exact ⟨apiErrorOf ⟨status, body⟩,
      by simp [Resource.get, runRequest, mkResult, ht, handleResponse, h2],
      by simp [apiErrorOf, MollieError.message, hs]⟩
  · intro hs
    exact ⟨apiErrorOf ⟨status, body⟩,
      by simp [Resource.get, runRequest, mkResult, ht, handleResponse, h2],
      by simp [apiErrorOf, MollieError.message, hs]⟩
  · intro c hc
    subst hc
    exact ⟨apiErrorOf ⟨status, body⟩,
      by simp [Resource.get, runRequest, mkResult, cbRecord, ht, handleResponse, h2],
      by simp [apiErrorOf, MollieError.message]⟩

/-- Witness for C3 at a concrete 500 response carrying a `detail` field. -/
theorem error_message_from_detail_witness :
    startsWith "ord_1" Order.resourcePrefix = true ∧
    is2xx 500 = false ∧
    ∃ e, (Orders.get errorStubTransport "ord_1" (.value none) none).outcome = .error e ∧
      e.message = "The method id is invalid" :=
  ⟨by decide, by decide,
   (error_message_from_detail errorStubTransport "ord_1" none none 500
      (.obj [("detail", .str "The method id is invalid")]) (by decide) rfl rfl).1
     "The method id is invalid" rfl⟩

/-- C5 counterexample: with the callback supplied in the deprecated params
position and an id failing prefix validation, the supplied callback is never
invoked, while the promise form rejects with the validation error — so the
two calling forms are not observationally equivalent as the claim states. -/
theorem callback_equiv_counterexample :
    (Orders.get stubTransport "foo" (.func 7) none).callbackCalls = [] ∧
    (Orders.get stubTransport "foo" (.value none) none).outcome =
      .error (.validation "The order id is invalid") :=
  ⟨rfl, rfl⟩

/-- C5 amended: the callback form is an adapter over the single promise
path — for every input with the callback in the callback position, and for
every id passing prefix validation with the callback in the deprecated
params position, the callback receives exactly the `(error, result)` the
promise form would produce; but when the params-position form fails id
validation, the callback is not invoked and only the promise rejection
surfaces the validation error. -/
theorem callback_convention_equivalence (t : Transport) (id : String)
    (p : Option Params) (c : Callback) (data : Params) :
    ((Orders.get t id (.value p) (some c)).outcome =
        (Orders.get t id (.value p) none).outcome ∧
      (Orders.get t id (.value p) (some c)).callbackCalls =
        cbRecord (some c) (Orders.get t id (.value p) none).outcome) ∧
    (startsWith id Order.resourcePrefix = true →
      (Orders.get t id (.func c) none).outcome =
          (Orders.get t id (.value none) none).outcome ∧
        (Orders.get t id (.func c) none).callbackCalls =
          cbRecord (some c) (Orders.get t id (.value none) none).outcome) ∧
    (startsWith id Order.resourcePrefix = false →
      (Orders.get t id (.func c) none).callbackCalls = [] ∧
      (Orders.get t id (.func c) none).outcome =
        (Orders.get t id (.value none) none).outcome) ∧
    ((Orders.list t (.value p) (some c)).outcome = (Orders.list t (.value p) none).outcome ∧
      (Orders.list t (.value p) (some c)).callbackCalls =
        cbRecord (some c) (Orders.list t (.value p) none).outcome) ∧
    ((Orders.list t (.func c) none).outcome = (Orders.list t (.value none) none).outcome ∧
      (Orders.list t (.func c) none).callbackCalls =
        cbRecord (some c) (Orders.list t (.value none) none).outcome) ∧
    ((Orders.update t id data (some c)).outcome = (Orders.update t id data none).outcome ∧
      (Orders.update t id data (some c)).callbackCalls =
        cbRecord (some c) (Orders.update t id data none).outcome) ∧
    ((Orders.cancel t id (.value p) (some c)).outcome =
        (Orders.cancel t id (.value p) none).outcome ∧
      (Orders.cancel t id (.value p) (some c)).callbackCalls =
        cbRecord (some c) (Orders.cancel t id (.value p) none).outcome) ∧
    (startsWith id Order.resourcePrefix = true →
      (Orders.cancel t id (.func c) none).outcome =
          (Orders.cancel t id (.value none) none).outcome ∧
        (Orders.cancel t id (.func c) none).callbackCalls =
          cbRecord (some c) (Orders.cancel t id (.value none) none).outcome) ∧
    ((Orders.create t data (some c)).outcome = (Orders.create t data none).outcome ∧
      (Orders.create t data (some c)).callbackCalls =
        cbRecord (some c) (Orders.create t data none).outcome) := by
  cases hb : startsWith id Order.resourcePrefix <;>
    simp [Orders.get, Orders.list, Orders.update, Orders.cancel, Orders.create,
      Orders.getArgs, Orders.listArgs, Orders.updateArgs, Orders.cancelArgs,
      Resource.get, Resource.list, Resource.update, Resource.delete, Resource.create,
      runRequest, mkResult, failResult, cbRecord, ParamsArg.isFunc, ParamsArg.theFunc,
      ParamsArg.asValue, hb]

/-- Witness for C5's amended equivalence at concrete ids on both sides of
the validation boundary. -/
theorem callback_convention_equivalence_witness :
    ((Orders.get stubTransport "ord_1" (.func 7) none).outcome =
      (Orders.get stubTransport "ord_1" (.value none) none).outcome) ∧
    ((Orders.get stubTransport "foo" (.func 7) none).callbackCalls = []) :=
  ⟨((callback_convention_equivalence stubTransport "ord_1" none 7 .null).2.1
      (by decide)).1,
   ((callback_convention_equivalence stubTransport "foo" none 7 .null).2.2.1
      (by decide)).1⟩

/-- C6: the List built from a collection response holds exactly the embedded
items, in response order; an empty collection with absent or `null` links
yields a List of length zero with no next/previous links; and on a 2xx
collection response `Orders.list` resolves with exactly that List. -/
theorem list_preserves_embedded (body : JValue) :
    ((buildList Orders.resource body).items.length =
      (getEmbedded Orders.resource body).length) ∧
    (∀ (i : Nat) (h1 : i < (buildList Orders.resource body).items.length)
        (h2 : i < (getEmbedded Orders.resource body).length),
      (buildList Orders.resource body).items.get ⟨i, h1⟩ =
        Order.fromBody ((getEmbedded Orders.resource body).get ⟨i, h2⟩)) ∧
    (getEmbedded Orders.resource body = [] → getLink body "next" = none →
      getLink body "previous" = none →
      (buildList Orders.resource body).items.length = 0 ∧
      (buildList Orders.resource body).nextLink = none ∧
      (buildList Orders.resource body).previousLink = none) ∧
    (∀ (t : Transport) (p : Option Params) (status : Nat),
      t ⟨"GET", Orders.resource, p⟩ = .response ⟨status, body⟩ → is2xx status = true →
      (Orders.list t (.value p) none).outcome = .ok (buildList Orders.resource body)) := by
  refine ⟨by simp [buildList], ?_, ?_, ?_⟩
  · intro i h1 h2
    simp [buildList, List.getElem_map]
  · intro he hn hp
    simp [buildList, he, hn, hp]
  · intro t p status ht h2
    simp [Orders.list, Orders.listArgs, ParamsArg.isFunc, ParamsArg.asValue,
      Resource.list, runRequest, mkResult, ht, handleResponse, h2]

/-- Witness for C6 at a one-item collection and an empty collection. -/
theorem list_preserves_embedded_witness :
    ((buildList Orders.resource listBodyOne).items.length = 1 ∧
      (buildList Orders.resource listBodyOne).items.get ⟨0, by decide⟩ =
        Order.fromBody (.str "o1")) ∧
    ((buildList Orders.resource listBodyEmpty).items.length = 0 ∧
      (buildList Orders.resource listBodyEmpty).nextLink = none ∧
      (buildList Orders.resource listBodyEmpty).previousLink = none) ∧
    (Orders.list listStubTransport (.value none) none).outcome =
      .ok (buildList Orders.resource listBodyOne) :=
  ⟨⟨rfl, by
     have h := (list_preserves_embedded listBodyOne).2.1 0 (by decide) (by decide)
     simpa using h⟩,
   (list_preserves_embedded listBodyEmpty).2.2.1 rfl rfl rfl,
   (list_preserves_embedded listBodyOne).2.2.2 listStubTransport none 200 rfl rfl⟩

/-- Witness for C8 at a concrete valid id and 200 response. -/
theorem delete_is_cancel_witness :
    startsWith "ord_1" Order.resourcePrefix = true ∧
    is2xx 200 = true ∧
    (Orders.delete cancelStubTransport "ord_1" (.value none) none).outcome =
      .ok (Order.fromBody (.str "canceled")) :=
  ⟨by decide, by decide,
   (delete_is_cancel cancelStubTransport "ord_1" (.value none) none 200 (.str "canceled")).2
     (by decide) rfl rfl⟩

end Mollie
